import Mathlib

/-!
# Telegram push adapter: response classification

A shallow embedding of `internal/services/telegram/telegram.go`.

`TelegramService.PushMessage` talks to three collaborators that live outside
the file: `http.NewRequest`, `(*http.Client).Do` and `json.Decoder.Decode`.
They are taken as parameters (`Env`), so every statement below holds for all
behaviours of those libraries.  The feedback collector (`fc.CountPush`,
`fc.TokenInvalid`), the logger, the transport call and the deferred
`resp.Body.Close()` are side effects; the embedding returns them as an
ordered trace next to the returned push status.
-/

namespace Telegram

/-- Raw bytes (`[]byte`, `io.Reader` contents), one natural number per byte. -/
abbrev Bytes := List Nat

/-- Modelled from the spec: the three `services.PushStatus` constants used by
`PushMessage` (package `services` is not part of the sources at hand); the
spec calls them `Success`, `TemporaryFailure` and `HardFailure`. -/
inductive PushStatus where
  | PushStatusSuccess
  | PushStatusTempFail
  | PushStatusHardFail
  deriving DecidableEq

/-- Modelled from the spec: the `telegramMessage` struct, declared in another
file of the package; `PushMessage` reads `Method`, `Payload` and `ChatID`
(the spec's method name, serialized payload and recipient identifier). -/
structure telegramMessage where
  Method : String
  Payload : Bytes
  ChatID : String
  deriving DecidableEq

/-- The configuration fields of `TelegramService` (telegram.go:19-25); the
wait group, logger and pump handles carry no data read by `PushMessage`. -/
structure TelegramService where
  botToken : String
  workers : Int
  deriving DecidableEq

/-- The parts of an `*http.Request` that `PushMessage` determines. -/
structure Request where
  Method : String
  URL : String
  Body : Bytes
  Header : List (String × String)
  deriving DecidableEq

/-- The parts of an `*http.Response` that `PushMessage` reads. -/
structure Response where
  StatusCode : Int
  Body : Bytes
  deriving DecidableEq

/-- The anonymous struct `respData` (telegram.go:87-91). -/
structure respData where
  OK : Bool
  ErrorCode : Int
  Description : String
  deriving DecidableEq

deriving instance DecidableEq for Except

/-- The collaborators of one push attempt: the three library calls and the two
readings of `time.Now()` (telegram.go:59 and :74). -/
structure Env where
  NewRequest : String → String → Bytes → Except String Request
  Do : Request → Except String Response
  Decode : Bytes → Except String respData
  startedAt : Int
  respondedAt : Int

/-- The `tg.log` lines written by `PushMessage`, one constructor per call site. -/
inductive LogEntry where
  | creatingRequest (err : String)
  | posting (err : String)
  | throttled
  | decodingResponse (err : String)
  | rejected (description : String) (errorCode : Int) (statusCode : Int)
  | upstreamStatus (statusCode : Int)
  | pushed (duration : Int)
  deriving DecidableEq

/-- The observable effects of `PushMessage`, in the order they happen. -/
inductive Event where
  | doRequest (req : Request)
  | log (entry : LogEntry)
  | tokenInvalid (serviceID : String) (token : String)
  | closeBody
  | countPush (serviceID : String) (success : Bool) (duration : Int)
  deriving DecidableEq

/-- Does `s` start with `p`? -/
def startsWithChars : List Char → List Char → Bool
  | _, [] => true
  | [], _ :: _ => false
  | c :: cs, p :: ps => c == p && startsWithChars cs ps

/-- Does `sub` occur in `s` at some position? -/
def containsChars : List Char → List Char → Bool
  | [], sub => startsWithChars [] sub
  | c :: cs, sub => startsWithChars (c :: cs) sub || containsChars cs sub

/-- The library function `strings.Contains`.  The decoded description is valid
UTF-8, on which byte-wise and character-wise search agree. -/
def stringsContains (s substr : String) : Bool :=
  containsChars s.toList substr.toList

/-- The method `Header.Set`: the key gets exactly this value. -/
def headerSet (h : List (String × String)) (key value : String) : List (String × String) :=
  (key, value) :: h.filter (fun kv => kv.1 != key)

/-- The method `ID` (telegram.go:39-42). -/
def TelegramService.ID (_tg : TelegramService) : String := "telegram"

/-- The URL of telegram.go:62,
`fmt.Sprintf("https://api.telegram.org/bot%s/%s", tg.botToken, msg.Method)`. -/
def pushURL (tg : TelegramService) (msg : telegramMessage) : String :=
  "https://api.telegram.org/bot" ++ tg.botToken ++ "/" ++ msg.Method

/-- The effect of telegram.go:68, `req.Header.Set("Content-Type", "application/json")`. -/
def setContentType (req : Request) : Request :=
  { req with Header := headerSet req.Header "Content-Type" "application/json" }

/-- The method `PushMessage` (telegram.go:56-115): the returned status and the
trace of effects.  The two deferred calls run after the body of the function,
last registered first: `resp.Body.Close()`, then `fc.CountPush`. -/
def PushMessage (tg : TelegramService) (env : Env) (msg : telegramMessage) :
    PushStatus × List Event :=
  -- var success bool: declared at :60, read at :77, assigned nowhere
  let success : Bool := false
  match env.NewRequest "POST" (pushURL tg msg) msg.Payload with
  | .error err =>
    (.PushStatusHardFail, [.log (.creatingRequest err)])
  | .ok req0 =>
    let req := setContentType req0
    match env.Do req with
    | .error err =>
      (.PushStatusTempFail, [.doRequest req, .log (.posting err)])
    | .ok resp =>
      let duration := env.respondedAt - env.startedAt
      let deferred : List Event := [.closeBody, .countPush tg.ID success duration]
      if resp.StatusCode = 429 then
        (.PushStatusTempFail, [.doRequest req, .log .throttled] ++ deferred)
      else
        match env.Decode resp.Body with
        | .error err =>
          (.PushStatusTempFail, [.doRequest req, .log (.decodingResponse err)] ++ deferred)
        | .ok d =>
          let signal : List Event :=
            if d.ErrorCode = 400 ∧ stringsContains d.Description "chat not found" = true then
              [.tokenInvalid tg.ID msg.ChatID]
            else []
          if 400 ≤ resp.StatusCode ∧ resp.StatusCode < 500 then
            (.PushStatusHardFail,
              [.doRequest req] ++ signal
                ++ [.log (.rejected d.Description d.ErrorCode resp.StatusCode)] ++ deferred)
          else if 500 ≤ resp.StatusCode ∧ resp.StatusCode < 600 then
            (.PushStatusTempFail,
              [.doRequest req] ++ signal ++ [.log (.upstreamStatus resp.StatusCode)] ++ deferred)
          else
            (.PushStatusSuccess,
              [.doRequest req] ++ signal ++ [.log (.pushed duration)] ++ deferred)

/-! ## Observations on a trace -/

/-- The arguments of the `fc.TokenInvalid` calls in a trace, in order. -/
def tokenInvalidCalls : List Event → List (String × String)
  | [] => []
  | .tokenInvalid sid tok :: es => (sid, tok) :: tokenInvalidCalls es
  | _ :: es => tokenInvalidCalls es

/-- The arguments of the `fc.CountPush` calls in a trace, in order. -/
def countPushCalls : List Event → List (String × Bool × Int)
  | [] => []
  | .countPush sid ok dur :: es => (sid, ok, dur) :: countPushCalls es
  | _ :: es => countPushCalls es

/-- The requests handed to `client.Do` in a trace, in order. -/
def doCalls : List Event → List Request
  | [] => []
  | .doRequest req :: es => req :: doCalls es
  | _ :: es => doCalls es

/-! ## Fixtures: one concrete behaviour of the collaborators -/

/-- The bytes of an ASCII string. -/
def asciiBytes (s : String) : Bytes := s.toList.map Char.toNat

/-- A request constructor that, as `net/url` does, rejects a URL holding an
ASCII control character and accepts every other one. -/
def fixtureNewRequest (method url : String) (body : Bytes) : Except String Request :=
  if url.toList.any (fun c => decide (c.toNat < 32) || decide (c.toNat = 127)) then
    .error "net/url: invalid control character in URL"
  else
    .ok { Method := method, URL := url, Body := body, Header := [] }

/-- A decoder that knows three bodies and rejects every other one. -/
def fixtureDecode (body : Bytes) : Except String respData :=
  if body = asciiBytes "\x7b\"ok\":true\x7d" then
    .ok { OK := true, ErrorCode := 0, Description := "" }
  else if body = asciiBytes "\x7b\"ok\":false\x7d" then
    .ok { OK := false, ErrorCode := 0, Description := "" }
  else if body =
      asciiBytes "\x7b\"ok\":false,\"error_code\":400,\"description\":\"Bad Request: chat not found\"\x7d" then
    .ok { OK := false, ErrorCode := 400, Description := "Bad Request: chat not found" }
  else if body = [] then
    .error "EOF"
  else
    .error "invalid character"

/-- A backend that answers every request with the given status and body. -/
def fixtureEnv (status : Int) (body : String) : Env where
  NewRequest := fixtureNewRequest
  Do := fun _ => .ok { StatusCode := status, Body := asciiBytes body }
  Decode := fixtureDecode
  startedAt := 1000
  respondedAt := 1250

/-- A backend that cannot be reached. -/
def fixtureOffline : Env where
  NewRequest := fixtureNewRequest
  Do := fun _ => .error "dial tcp: connection refused"
  Decode := fixtureDecode
  startedAt := 1000
  respondedAt := 1250

/-- The service under test. -/
def fixtureService : TelegramService := { botToken := "123:abc", workers := 2 }

/-- A well-formed message. -/
def fixtureMessage : telegramMessage :=
  { Method := "sendMessage", Payload := asciiBytes "\x7b\"chat_id\":42\x7d", ChatID := "42" }

/-- A message whose method puts a line feed into the URL. -/
def fixtureBadMessage : telegramMessage :=
  { Method := "send\nMessage", Payload := [], ChatID := "42" }

/-- The request built for `fixtureMessage`. -/
def fixtureRequest : Request :=
  { Method := "POST", URL := "https://api.telegram.org/bot123:abc/sendMessage",
    Body := asciiBytes "\x7b\"chat_id\":42\x7d", Header := [] }

/-! ## The substring test -/

/-- The function `startsWithChars` decides whether `p` is an initial segment of `s`. -/
lemma startsWithChars_iff (s p : List Char) :
    startsWithChars s p = true ↔ ∃ t, s = p ++ t := by
  induction s generalizing p with
  | nil =>
    cases p with
    | nil => simp [startsWithChars]
    | cons q ps => simp [startsWithChars]
  | cons c cs ih =>
    cases p with
    | nil => simp [startsWithChars]
    | cons q ps =>
      simp only [startsWithChars, Bool.and_eq_true, beq_iff_eq, ih, List.cons_append,
        List.cons.injEq]
      constructor
      · rintro ⟨hc, t, ht⟩
        exact ⟨t, hc, ht⟩
      · rintro ⟨t, hc, ht⟩
        exact ⟨hc, t, ht⟩

/-- The function `containsChars` decides whether `sub` occurs in `s` as a
contiguous block, which is what `strings.Contains` reports. -/
lemma containsChars_iff (s sub : List Char) :
    containsChars s sub = true ↔ ∃ a b, s = a ++ sub ++ b := by
  induction s with
  | nil =>
    simp only [containsChars, startsWithChars_iff]
    constructor
    · rintro ⟨t, ht⟩
      exact ⟨[], t, by simpa using ht⟩
    · rintro ⟨a, b, hab⟩
      have ha : a = [] := by
        cases a with
        | nil => rfl
        | cons x xs => simp at hab
      subst ha
      exact ⟨b, by simpa using hab⟩
  | cons c cs ih =>
    simp only [containsChars, Bool.or_eq_true, startsWithChars_iff, ih]
    constructor
    · rintro (⟨t, ht⟩ | ⟨a, b, hab⟩)
      · exact ⟨[], t, by simpa using ht⟩
      · exact ⟨c :: a, b, by simp [hab]⟩
    · rintro ⟨a, b, hab⟩
      cases a with
      | nil => exact Or.inl ⟨b, by simpa using hab⟩
      | cons x xs =>
        simp only [List.cons_append, List.cons.injEq] at hab
        exact Or.inr ⟨xs, b, hab.2⟩

/-! ## The shape of a push attempt -/

/-- An attempt whose request cannot be constructed. -/
lemma PushMessage_of_newRequest_error (tg : TelegramService) (env : Env) (msg : telegramMessage)
    (err : String)
    (hreq : env.NewRequest "POST" (pushURL tg msg) msg.Payload = .error err) :
    PushMessage tg env msg = (.PushStatusHardFail, [.log (.creatingRequest err)]) := by
  simp only [PushMessage, hreq]

/-- An attempt whose transport call fails. -/
lemma PushMessage_of_do_error (tg : TelegramService) (env : Env) (msg : telegramMessage)
    (req : Request) (err : String)
    (hreq : env.NewRequest "POST" (pushURL tg msg) msg.Payload = .ok req)
    (hdo : env.Do (setContentType req) = .error err) :
    PushMessage tg env msg
      = (.PushStatusTempFail, [.doRequest (setContentType req), .log (.posting err)]) := by
  simp only [PushMessage, hreq, hdo]

/-- An attempt that is answered with status 429. -/
lemma PushMessage_of_429 (tg : TelegramService) (env : Env) (msg : telegramMessage)
    (req : Request) (resp : Response)
    (hreq : env.NewRequest "POST" (pushURL tg msg) msg.Payload = .ok req)
    (hdo : env.Do (setContentType req) = .ok resp)
    (h429 : resp.StatusCode = 429) :
    PushMessage tg env msg
      = (.PushStatusTempFail,
          [.doRequest (setContentType req), .log .throttled, .closeBody,
            .countPush "telegram" false (env.respondedAt - env.startedAt)]) := by
  simp [PushMessage, hreq, hdo, h429, TelegramService.ID]

/-- An attempt whose answer, not a 429, cannot be decoded. -/
lemma PushMessage_of_decode_error (tg : TelegramService) (env : Env) (msg : telegramMessage)
    (req : Request) (resp : Response) (err : String)
    (hreq : env.NewRequest "POST" (pushURL tg msg) msg.Payload = .ok req)
    (hdo : env.Do (setContentType req) = .ok resp)
    (h429 : resp.StatusCode ≠ 429)
    (hdec : env.Decode resp.Body = .error err) :
    PushMessage tg env msg
      = (.PushStatusTempFail,
          [.doRequest (setContentType req), .log (.decodingResponse err), .closeBody,
            .countPush "telegram" false (env.respondedAt - env.startedAt)]) := by
  simp [PushMessage, hreq, hdo, h429, hdec, TelegramService.ID]

/-- The status of an attempt whose answer, not a 429, decodes. -/
lemma PushMessage_status_of_decoded (tg : TelegramService) (env : Env) (msg : telegramMessage)
    (req : Request) (resp : Response) (d : respData)
    (hreq : env.NewRequest "POST" (pushURL tg msg) msg.Payload = .ok req)
    (hdo : env.Do (setContentType req) = .ok resp)
    (h429 : resp.StatusCode ≠ 429)
    (hdec : env.Decode resp.Body = .ok d) :
    (PushMessage tg env msg).1
      = if 400 ≤ resp.StatusCode ∧ resp.StatusCode < 500 then PushStatus.PushStatusHardFail
        else if 500 ≤ resp.StatusCode ∧ resp.StatusCode < 600 then PushStatus.PushStatusTempFail
        else PushStatus.PushStatusSuccess := by
  simp only [PushMessage, hreq, hdo, h429, hdec, if_false]
  split_ifs <;> rfl

/-- The invalid-recipient signals of an attempt whose answer, not a 429, decodes. -/
lemma PushMessage_tokenInvalid_of_decoded (tg : TelegramService) (env : Env)
    (msg : telegramMessage) (req : Request) (resp : Response) (d : respData)
    (hreq : env.NewRequest "POST" (pushURL tg msg) msg.Payload = .ok req)
    (hdo : env.Do (setContentType req) = .ok resp)
    (h429 : resp.StatusCode ≠ 429)
    (hdec : env.Decode resp.Body = .ok d) :
    tokenInvalidCalls (PushMessage tg env msg).2
      = if d.ErrorCode = 400 ∧ stringsContains d.Description "chat not found" = true then
          [("telegram", msg.ChatID)]
        else [] := by
  simp only [PushMessage, hreq, hdo, h429, hdec, if_false]
  split_ifs <;> simp [tokenInvalidCalls, TelegramService.ID]

/-- The push-metric records of an attempt that obtained a response. -/
lemma PushMessage_countPush_of_response (tg : TelegramService) (env : Env)
    (msg : telegramMessage) (req : Request) (resp : Response)
    (hreq : env.NewRequest "POST" (pushURL tg msg) msg.Payload = .ok req)
    (hdo : env.Do (setContentType req) = .ok resp) :
    countPushCalls (PushMessage tg env msg).2
      = [("telegram", false, env.respondedAt - env.startedAt)] := by
  by_cases h429 : resp.StatusCode = 429
  · rw [PushMessage_of_429 tg env msg req resp hreq hdo h429]; rfl
  · cases hdec : env.Decode resp.Body with
    | error err =>
      rw [PushMessage_of_decode_error tg env msg req resp err hreq hdo h429 hdec]; rfl
    | ok d =>
      simp only [PushMessage, hreq, hdo, h429, hdec, if_false]
      split_ifs <;> simp [countPushCalls, TelegramService.ID]

/-! ## The claims -/

/-- C1: a response with status code in [500,600) is classified as
`PushStatusTempFail`, whatever its body is and whether or not it decodes. -/
theorem status_5xx_is_temp_fail (tg : TelegramService) (env : Env) (msg : telegramMessage)
    (req : Request) (resp : Response)
    (hreq : env.NewRequest "POST" (pushURL tg msg) msg.Payload = .ok req)
    (hdo : env.Do (setContentType req) = .ok resp)
    (hlo : 500 ≤ resp.StatusCode) (hhi : resp.StatusCode < 600) :
    (PushMessage tg env msg).1 = .PushStatusTempFail := by
  have h429 : resp.StatusCode ≠ 429 := by omega
  cases hdec : env.Decode resp.Body with
  | error err => rw [PushMessage_of_decode_error tg env msg req resp err hreq hdo h429 hdec]
  | ok d =>
    rw [PushMessage_status_of_decoded tg env msg req resp d hreq hdo h429 hdec]
    rw [if_neg (by omega), if_pos ⟨hlo, hhi⟩]

/-- C1, at status 503 with an empty body and at status 500 with a decodable body. -/
theorem status_5xx_is_temp_fail_witness :
    (PushMessage fixtureService (fixtureEnv 503 "") fixtureMessage).1 = .PushStatusTempFail
    ∧ (PushMessage fixtureService (fixtureEnv 500 "\x7b\"ok\":true\x7d") fixtureMessage).1
        = .PushStatusTempFail :=
  ⟨status_5xx_is_temp_fail fixtureService (fixtureEnv 503 "") fixtureMessage fixtureRequest
      ⟨503, []⟩ (by decide) (by decide) (by decide) (by decide),
   status_5xx_is_temp_fail fixtureService (fixtureEnv 500 "\x7b\"ok\":true\x7d") fixtureMessage
      fixtureRequest ⟨500, asciiBytes "\x7b\"ok\":true\x7d"⟩
      (by decide) (by decide) (by decide) (by decide)⟩

/-- C2, as stated, fails: a response with status 400 whose body does not
decode is classified as `PushStatusTempFail`, not `PushStatusHardFail`. -/
theorem status_4xx_undecodable_is_temp_fail :
    fixtureNewRequest "POST" (pushURL fixtureService fixtureMessage) fixtureMessage.Payload
        = .ok fixtureRequest
    ∧ (fixtureEnv 400 "<html>").Do (setContentType fixtureRequest)
        = .ok ⟨400, asciiBytes "<html>"⟩
    ∧ fixtureDecode (asciiBytes "<html>") = .error "invalid character"
    ∧ (PushMessage fixtureService (fixtureEnv 400 "<html>") fixtureMessage).1
        = .PushStatusTempFail := by
  decide

/-- C2, amended: a response with status code in [400,500) other than 429 whose
body decodes is classified as `PushStatusHardFail`, whatever the decoded
fields are. -/
theorem status_4xx_decoded_is_hard_fail (tg : TelegramService) (env : Env)
    (msg : telegramMessage) (req : Request) (resp : Response) (d : respData)
    (hreq : env.NewRequest "POST" (pushURL tg msg) msg.Payload = .ok req)
    (hdo : env.Do (setContentType req) = .ok resp)
    (hlo : 400 ≤ resp.StatusCode) (hhi : resp.StatusCode < 500)
    (h429 : resp.StatusCode ≠ 429)
    (hdec : env.Decode resp.Body = .ok d) :
    (PushMessage tg env msg).1 = .PushStatusHardFail := by
  rw [PushMessage_status_of_decoded tg env msg req resp d hreq hdo h429 hdec]
  rw [if_pos ⟨hlo, hhi⟩]

/-- C2 amended, at status 400 with the "chat not found" body. -/
theorem status_4xx_decoded_is_hard_fail_witness :
    (PushMessage fixtureService
      (fixtureEnv 400
        "\x7b\"ok\":false,\"error_code\":400,\"description\":\"Bad Request: chat not found\"\x7d")
      fixtureMessage).1 = .PushStatusHardFail :=
  status_4xx_decoded_is_hard_fail fixtureService
    (fixtureEnv 400
      "\x7b\"ok\":false,\"error_code\":400,\"description\":\"Bad Request: chat not found\"\x7d")
    fixtureMessage fixtureRequest
    ⟨400, asciiBytes
      "\x7b\"ok\":false,\"error_code\":400,\"description\":\"Bad Request: chat not found\"\x7d"⟩
    ⟨false, 400, "Bad Request: chat not found"⟩
    (by decide) (by decide) (by decide) (by decide) (by decide) (by decide)

/-- C3: a response with status code 429 is classified as `PushStatusTempFail`
for every body and every behaviour of the decoder; the 429 test is reached
before the [400,500) test. -/
theorem status_429_is_temp_fail (tg : TelegramService) (env : Env) (msg : telegramMessage)
    (req : Request) (resp : Response)
    (hreq : env.NewRequest "POST" (pushURL tg msg) msg.Payload = .ok req)
    (hdo : env.Do (setContentType req) = .ok resp)
    (h429 : resp.StatusCode = 429) :
    (PushMessage tg env msg).1 = .PushStatusTempFail := by
  rw [PushMessage_of_429 tg env msg req resp hreq hdo h429]

/-- C3, at status 429 with the success-shaped body. -/
theorem status_429_is_temp_fail_witness :
    fixtureDecode (asciiBytes "\x7b\"ok\":true\x7d") = .ok ⟨true, 0, ""⟩
    ∧ (PushMessage fixtureService (fixtureEnv 429 "\x7b\"ok\":true\x7d") fixtureMessage).1
        = .PushStatusTempFail :=
  ⟨by decide,
   status_429_is_temp_fail fixtureService (fixtureEnv 429 "\x7b\"ok\":true\x7d") fixtureMessage
      fixtureRequest ⟨429, asciiBytes "\x7b\"ok\":true\x7d"⟩ (by decide) (by decide) (by decide)⟩

/-- C4: a response whose body fails to decode is classified as
`PushStatusTempFail` at every status code. -/
theorem undecodable_body_is_temp_fail (tg : TelegramService) (env : Env)
    (msg : telegramMessage) (req : Request) (resp : Response) (err : String)
    (hreq : env.NewRequest "POST" (pushURL tg msg) msg.Payload = .ok req)
    (hdo : env.Do (setContentType req) = .ok resp)
    (hdec : env.Decode resp.Body = .error err) :
    (PushMessage tg env msg).1 = .PushStatusTempFail := by
  by_cases h429 : resp.StatusCode = 429
  · rw [PushMessage_of_429 tg env msg req resp hreq hdo h429]
  · rw [PushMessage_of_decode_error tg env msg req resp err hreq hdo h429 hdec]

/-- C4, at status 200 with a body that is not JSON. -/
theorem undecodable_body_is_temp_fail_witness :
    (PushMessage fixtureService (fixtureEnv 200 "<html>") fixtureMessage).1
      = .PushStatusTempFail :=
  undecodable_body_is_temp_fail fixtureService (fixtureEnv 200 "<html>") fixtureMessage
    fixtureRequest ⟨200, asciiBytes "<html>"⟩ "invalid character"
    (by decide) (by decide) (by decide)

/-- C5: `fc.TokenInvalid` is called exactly once, with service id "telegram"
and the message's `ChatID`, when a response was obtained, its status is not
429, its body decodes, the decoded `error_code` is 400 and the decoded
description contains "chat not found"; in every other case it is not called. -/
theorem tokenInvalid_iff_chat_not_found (tg : TelegramService) (env : Env)
    (msg : telegramMessage) :
    ((∃ req resp d,
        env.NewRequest "POST" (pushURL tg msg) msg.Payload = .ok req
        ∧ env.Do (setContentType req) = .ok resp
        ∧ resp.StatusCode ≠ 429
        ∧ env.Decode resp.Body = .ok d
        ∧ d.ErrorCode = 400
        ∧ stringsContains d.Description "chat not found" = true) →
      tokenInvalidCalls (PushMessage tg env msg).2 = [("telegram", msg.ChatID)])
    ∧ ((¬ ∃ req resp d,
        env.NewRequest "POST" (pushURL tg msg) msg.Payload = .ok req
        ∧ env.Do (setContentType req) = .ok resp
        ∧ resp.StatusCode ≠ 429
        ∧ env.Decode resp.Body = .ok d
        ∧ d.ErrorCode = 400
        ∧ stringsContains d.Description "chat not found" = true) →
      tokenInvalidCalls (PushMessage tg env msg).2 = []) := by
  constructor
  · rintro ⟨req, resp, d, hreq, hdo, h429, hdec, hcode, hdesc⟩
    rw [PushMessage_tokenInvalid_of_decoded tg env msg req resp d hreq hdo h429 hdec]
    rw [if_pos ⟨hcode, hdesc⟩]
  · intro hnot
    cases hreq : env.NewRequest "POST" (pushURL tg msg) msg.Payload with
    | error err => rw [PushMessage_of_newRequest_error tg env msg err hreq]; rfl
    | ok req =>
      cases hdo : env.Do (setContentType req) with
      | error err => rw [PushMessage_of_do_error tg env msg req err hreq hdo]; rfl
      | ok resp =>
        by_cases h429 : resp.StatusCode = 429
        · rw [PushMessage_of_429 tg env msg req resp hreq hdo h429]; rfl
        · cases hdec : env.Decode resp.Body with
          | error err =>
            rw [PushMessage_of_decode_error tg env msg req resp err hreq hdo h429 hdec]; rfl
          | ok d =>
            rw [PushMessage_tokenInvalid_of_decoded tg env msg req resp d hreq hdo h429 hdec]
            rw [if_neg]
            rintro ⟨hcode, hdesc⟩
            exact hnot ⟨req, resp, d, hreq, hdo, h429, hdec, hcode, hdesc⟩

/-- C5, at status 400 with the "chat not found" body (one call) and at status
429 with an empty body (no call). -/
theorem tokenInvalid_iff_chat_not_found_witness :
    tokenInvalidCalls (PushMessage fixtureService
        (fixtureEnv 400
          "\x7b\"ok\":false,\"error_code\":400,\"description\":\"Bad Request: chat not found\"\x7d")
        fixtureMessage).2 = [("telegram", "42")]
    ∧ tokenInvalidCalls (PushMessage fixtureService (fixtureEnv 429 "") fixtureMessage).2 = [] :=
  ⟨(tokenInvalid_iff_chat_not_found fixtureService
      (fixtureEnv 400
        "\x7b\"ok\":false,\"error_code\":400,\"description\":\"Bad Request: chat not found\"\x7d")
      fixtureMessage).1
      ⟨fixtureRequest,
        ⟨400, asciiBytes
          "\x7b\"ok\":false,\"error_code\":400,\"description\":\"Bad Request: chat not found\"\x7d"⟩,
        ⟨false, 400, "Bad Request: chat not found"⟩,
        by decide, by decide, by decide, by decide, by decide, by decide⟩,
   (tokenInvalid_iff_chat_not_found fixtureService (fixtureEnv 429 "") fixtureMessage).2
      (by
        rintro ⟨req, resp, d, hreq, hdo, h429, -⟩
        have hresp : resp = ⟨429, asciiBytes ""⟩ := (Except.ok.inj hdo).symm
        exact h429 (by rw [hresp]))⟩

/-- C6, on the code: a response with status 200 and body `\x7b"ok":true\x7d` is
classified as `PushStatusSuccess` and `fc.CountPush` is called exactly once
with service id "telegram", but with success flag `false`. -/
theorem success_counted_with_false_flag :
    fixtureDecode (asciiBytes "\x7b\"ok\":true\x7d") = .ok ⟨true, 0, ""⟩
    ∧ (PushMessage fixtureService (fixtureEnv 200 "\x7b\"ok\":true\x7d") fixtureMessage).1
        = .PushStatusSuccess
    ∧ countPushCalls
        (PushMessage fixtureService (fixtureEnv 200 "\x7b\"ok\":true\x7d") fixtureMessage).2
        = [("telegram", false, 250)] := by
  decide

/-- C7, as stated, fails: the request is constructed, the transport call
fails, and `fc.CountPush` is not called. -/
theorem transport_error_counts_no_push :
    fixtureOffline.NewRequest "POST" (pushURL fixtureService fixtureMessage)
        fixtureMessage.Payload = .ok fixtureRequest
    ∧ fixtureOffline.Do (setContentType fixtureRequest) = .error "dial tcp: connection refused"
    ∧ countPushCalls (PushMessage fixtureService fixtureOffline fixtureMessage).2 = [] := by
  decide

/-- C7, amended: `fc.CountPush` is called exactly once in every attempt that
obtained a response, whichever branch decides the outcome, and is not called
in any other attempt (request construction failed, or the transport call
returned an error). -/
theorem countPush_once_iff_response (tg : TelegramService) (env : Env)
    (msg : telegramMessage) :
    ((∃ req resp,
        env.NewRequest "POST" (pushURL tg msg) msg.Payload = .ok req
        ∧ env.Do (setContentType req) = .ok resp) →
      (countPushCalls (PushMessage tg env msg).2).length = 1)
    ∧ ((¬ ∃ req resp,
        env.NewRequest "POST" (pushURL tg msg) msg.Payload = .ok req
        ∧ env.Do (setContentType req) = .ok resp) →
      countPushCalls (PushMessage tg env msg).2 = []) := by
  constructor
  · rintro ⟨req, resp, hreq, hdo⟩
    rw [PushMessage_countPush_of_response tg env msg req resp hreq hdo]; rfl
  · intro hnot
    cases hreq : env.NewRequest "POST" (pushURL tg msg) msg.Payload with
    | error err => rw [PushMessage_of_newRequest_error tg env msg err hreq]; rfl
    | ok req =>
      cases hdo : env.Do (setContentType req) with
      | error err => rw [PushMessage_of_do_error tg env msg req err hreq hdo]; rfl
      | ok resp => exact absurd ⟨req, resp, hreq, hdo⟩ hnot

/-- C7 amended, at a 503 response (one record) and at an unreachable backend
(no record). -/
theorem countPush_once_iff_response_witness :
    (countPushCalls (PushMessage fixtureService (fixtureEnv 503 "") fixtureMessage).2).length = 1
    ∧ countPushCalls (PushMessage fixtureService fixtureOffline fixtureBadMessage).2 = [] :=
  ⟨(countPush_once_iff_response fixtureService (fixtureEnv 503 "") fixtureMessage).1
      ⟨fixtureRequest, ⟨503, []⟩, by decide, by decide⟩,
   (countPush_once_iff_response fixtureService fixtureOffline fixtureBadMessage).2
      (by
        rintro ⟨req, resp, hreq, -⟩
        have hbad : fixtureOffline.NewRequest "POST" (pushURL fixtureService fixtureBadMessage)
            fixtureBadMessage.Payload = .error "net/url: invalid control character in URL" := by
          decide
        rw [hbad] at hreq
        exact Except.noConfusion hreq)⟩

/-- C8: when the request is constructed and the transport call returns an
error, whatever the error, the attempt is classified as `PushStatusTempFail`
and `fc.TokenInvalid` is not called. -/
theorem transport_error_is_temp_fail (tg : TelegramService) (env : Env)
    (msg : telegramMessage) (req : Request) (err : String)
    (hreq : env.NewRequest "POST" (pushURL tg msg) msg.Payload = .ok req)
    (hdo : env.Do (setContentType req) = .error err) :
    (PushMessage tg env msg).1 = .PushStatusTempFail
    ∧ tokenInvalidCalls (PushMessage tg env msg).2 = [] := by
  rw [PushMessage_of_do_error tg env msg req err hreq hdo]
  exact ⟨rfl, rfl⟩

/-- C8, at an unreachable backend. -/
theorem transport_error_is_temp_fail_witness :
    (PushMessage fixtureService fixtureOffline fixtureMessage).1 = .PushStatusTempFail
    ∧ tokenInvalidCalls (PushMessage fixtureService fixtureOffline fixtureMessage).2 = [] :=
  transport_error_is_temp_fail fixtureService fixtureOffline fixtureMessage fixtureRequest
    "dial tcp: connection refused" (by decide) (by decide)

/-- C9: when request construction fails, the attempt is classified as
`PushStatusHardFail`, `client.Do` is not called, and neither `fc.CountPush`
nor `fc.TokenInvalid` is called. -/
theorem newRequest_error_is_hard_fail (tg : TelegramService) (env : Env)
    (msg : telegramMessage) (err : String)
    (hreq : env.NewRequest "POST" (pushURL tg msg) msg.Payload = .error err) :
    (PushMessage tg env msg).1 = .PushStatusHardFail
    ∧ doCalls (PushMessage tg env msg).2 = []
    ∧ countPushCalls (PushMessage tg env msg).2 = []
    ∧ tokenInvalidCalls (PushMessage tg env msg).2 = [] := by
  rw [PushMessage_of_newRequest_error tg env msg err hreq]
  exact ⟨rfl, rfl, rfl, rfl⟩

/-- C9, at a method that puts a line feed into the URL. -/
theorem newRequest_error_is_hard_fail_witness :
    (PushMessage fixtureService (fixtureEnv 200 "\x7b\"ok\":true\x7d") fixtureBadMessage).1
      = .PushStatusHardFail
    ∧ doCalls
        (PushMessage fixtureService (fixtureEnv 200 "\x7b\"ok\":true\x7d") fixtureBadMessage).2 = []
    ∧ countPushCalls
        (PushMessage fixtureService (fixtureEnv 200 "\x7b\"ok\":true\x7d") fixtureBadMessage).2 = []
    ∧ tokenInvalidCalls
        (PushMessage fixtureService (fixtureEnv 200 "\x7b\"ok\":true\x7d") fixtureBadMessage).2
        = [] :=
  newRequest_error_is_hard_fail fixtureService (fixtureEnv 200 "\x7b\"ok\":true\x7d")
    fixtureBadMessage "net/url: invalid control character in URL" (by decide)

/-- C10, as stated, fails: `PushStatusSuccess` is returned for status 200 with
a decoded `ok` of `false`, and for status 302, which lies outside [200,300). -/
theorem success_without_ok_or_2xx :
    fixtureDecode (asciiBytes "\x7b\"ok\":false\x7d") = .ok ⟨false, 0, ""⟩
    ∧ (PushMessage fixtureService (fixtureEnv 200 "\x7b\"ok\":false\x7d") fixtureMessage).1
        = .PushStatusSuccess
    ∧ (PushMessage fixtureService (fixtureEnv 302 "\x7b\"ok\":true\x7d") fixtureMessage).1
        = .PushStatusSuccess := by
  decide

/-- C10, amended: whenever `PushMessage` returns `PushStatusSuccess`, a
response was obtained whose body decoded and whose status code is neither 429
nor in [400,600); the decoded `ok` field is not consulted. -/
theorem success_only_if_decoded_non_error_status (tg : TelegramService) (env : Env)
    (msg : telegramMessage)
    (h : (PushMessage tg env msg).1 = .PushStatusSuccess) :
    ∃ req resp d,
      env.NewRequest "POST" (pushURL tg msg) msg.Payload = .ok req
      ∧ env.Do (setContentType req) = .ok resp
      ∧ env.Decode resp.Body = .ok d
      ∧ resp.StatusCode ≠ 429
      ∧ ¬ (400 ≤ resp.StatusCode ∧ resp.StatusCode < 600) := by
  cases hreq : env.NewRequest "POST" (pushURL tg msg) msg.Payload with
  | error err =>
    rw [PushMessage_of_newRequest_error tg env msg err hreq] at h
    exact PushStatus.noConfusion h
  | ok req =>
    cases hdo : env.Do (setContentType req) with
    | error err =>
      rw [PushMessage_of_do_error tg env msg req err hreq hdo] at h
      exact PushStatus.noConfusion h
    | ok resp =>
      by_cases h429 : resp.StatusCode = 429
      · rw [PushMessage_of_429 tg env msg req resp hreq hdo h429] at h
        exact PushStatus.noConfusion h
      · cases hdec : env.Decode resp.Body with
        | error err =>
          rw [PushMessage_of_decode_error tg env msg req resp err hreq hdo h429 hdec] at h
          exact PushStatus.noConfusion h
        | ok d =>
          rw [PushMessage_status_of_decoded tg env msg req resp d hreq hdo h429 hdec] at h
          refine ⟨req, resp, d, rfl, hdo, hdec, h429, ?_⟩
          split_ifs at h with h4 h5
          omega

/-- C10 amended, at status 200 with body `\x7b"ok":true\x7d`. -/
theorem success_only_if_decoded_non_error_status_witness :
    (PushMessage fixtureService (fixtureEnv 200 "\x7b\"ok\":true\x7d") fixtureMessage).1
      = .PushStatusSuccess
    ∧ ∃ req resp d,
      (fixtureEnv 200 "\x7b\"ok\":true\x7d").NewRequest "POST"
          (pushURL fixtureService fixtureMessage) fixtureMessage.Payload = .ok req
      ∧ (fixtureEnv 200 "\x7b\"ok\":true\x7d").Do (setContentType req) = .ok resp
      ∧ (fixtureEnv 200 "\x7b\"ok\":true\x7d").Decode resp.Body = .ok d
      ∧ resp.StatusCode ≠ 429
      ∧ ¬ (400 ≤ resp.StatusCode ∧ resp.StatusCode < 600) :=
  ⟨by decide,
   success_only_if_decoded_non_error_status fixtureService
      (fixtureEnv 200 "\x7b\"ok\":true\x7d") fixtureMessage (by decide)⟩

end Telegram
